import Mathlib

/-!
Verification of the response quality scoring engine
(`app/services/quality_scoring.py`).

The engine is embedded shallowly: every piece of string processing that the
Python code performs with plain `str` operations (substring containment via
the binary `in` operator, `str.split`, `str.strip`, `str.lower`,
`str.count`) is translated into executable Lean functions on `List Char`,
and all arithmetic, thresholds, clamping, aggregation, grading, flag
generation and review routing are translated exactly.  The only parts that
are not computed inside Lean are the Python `re` regular-expression match
counts and the external `textstat` Flesch reading-ease value: those are
side inputs to the scorer, so they appear here as an explicit record of
per-call match results (`RegexFeatures`), quantified over in the theorems.
Scores are rational numbers (`ℚ`), which model Python's int/float
arithmetic exactly on the values the engine produces.
-/

namespace QualityScoring

/-- Whitespace test shared by the embedded Python string primitives. -/
def isWs (c : Char) : Bool := c.isWhitespace

/-- Embedding of Python `str.strip()`: drop whitespace at both ends. -/
def pyStrip (l : List Char) : List Char :=
  ((l.dropWhile isWs).reverse.dropWhile isWs).reverse

/-- Check whether the first character list is a prefix of the second. -/
def matchHere : List Char → List Char → Bool
  | [], _ => true
  | _ :: _, [] => false
  | a :: n, b :: h => a == b && matchHere n h

/-- Embedding of Python substring containment (the binary `in` operator on `str`). -/
def containsL (needle : List Char) : List Char → Bool
  | [] => needle.isEmpty
  | b :: h => matchHere needle (b :: h) || containsL needle h

/-- Substring containment with a `String` needle against a character-list haystack. -/
def inStr (needle : String) (hay : List Char) : Bool :=
  containsL needle.toList hay

/-- Lower-case a character list, modelling Python `str.lower()`. -/
def lowerL (l : List Char) : List Char := l.map Char.toLower

/-- Embedding of Python `str.split(sep)`: split at every separator
character, keeping empty chunks (so `"a." -> ["a", ""]` and `"" -> [""]`). -/
def pySplitP (p : Char → Bool) (l : List Char) : List (List Char) :=
  l.foldr
    (fun c acc =>
      if p c then [] :: acc
      else
        match acc with
        | [] => [[c]]
        | g :: gs => (c :: g) :: gs)
    [[]]

/-- Embedding of Python `str.split()` with no argument: whitespace-separated
words, empty chunks discarded. -/
def pyWords (l : List Char) : List (List Char) :=
  (pySplitP isWs l).filter (fun w => !w.isEmpty)

/-- Word character test modelling the regex class `\w`. -/
def isWordChar (c : Char) : Bool := c.isAlphanum || c == '_'

/-- Model of `re.findall(r'\b\w+\b', s)`: the maximal runs of word characters. -/
def regexWords (l : List Char) : List (List Char) :=
  (pySplitP (fun c => !isWordChar c) l).filter (fun w => !w.isEmpty)

/-- Final clamping `min(100, max(0, score))` applied by every dimension scorer. -/
def clamp100 (q : ℚ) : ℚ := min 100 (max 0 q)

/-- Embedding of Python `round(x, 1)`: round to one decimal place. -/
def round1 (q : ℚ) : ℚ := ((round (q * 10) : ℤ) : ℚ) / 10

/-- Apostrophe character, used to spell the contracted phrases from the source. -/
def apo : String := ⟨[Char.ofNat 39]⟩

namespace QualityThresholds

/-- Threshold constant `QualityThresholds.EXCELLENT`. -/
def EXCELLENT : ℚ := 90

/-- Threshold constant `QualityThresholds.GOOD`. -/
def GOOD : ℚ := 80

/-- Threshold constant `QualityThresholds.ACCEPTABLE`. -/
def ACCEPTABLE : ℚ := 70

/-- Threshold constant `QualityThresholds.NEEDS_IMPROVEMENT`. -/
def NEEDS_IMPROVEMENT : ℚ := 60

/-- Threshold constant `QualityThresholds.POOR`. -/
def POOR : ℚ := 50

/-- Threshold constant `QualityThresholds.RELEVANCE_MIN`. -/
def RELEVANCE_MIN : ℚ := 70

/-- Threshold constant `QualityThresholds.READABILITY_MIN`. -/
def READABILITY_MIN : ℚ := 65

/-- Threshold constant `QualityThresholds.AUTHENTICITY_MIN`. -/
def AUTHENTICITY_MIN : ℚ := 70

/-- Threshold constant `QualityThresholds.COMPLIANCE_MIN`. -/
def COMPLIANCE_MIN : ℚ := 80

/-- Threshold constant `QualityThresholds.HELPFULNESS_MIN`. -/
def HELPFULNESS_MIN : ℚ := 65

/-- Threshold constant `QualityThresholds.AUTO_APPROVE`. -/
def AUTO_APPROVE : ℚ := 85

/-- Threshold constant `QualityThresholds.MANUAL_REVIEW`. -/
def MANUAL_REVIEW : ℚ := 60

/-- Threshold constant `QualityThresholds.REJECT`. -/
def REJECT : ℚ := 40

end QualityThresholds

/-- Per-call results of the Python `re` pattern matching and of the external
`textstat` Flesch computation used by the dimension scorers.  A regular
expression engine is not part of the embedding, so each field carries the
count (for `re.findall` / per-pattern tallies) or the truth value (for
`re.search`) that the corresponding pattern produces on the scored text;
`flesch` is `none` when `flesch_reading_ease` raises inside the scorer's
`try` block and `some v` when it returns the value `v`. -/
structure RegexFeatures where
  flesch : Option ℚ
  authPositive : ℕ
  authReddit : ℕ
  authNegative : ℕ
  helpSteps : ℕ
  helpRecs : ℕ
  helpExpl : ℕ
  helpAlts : ℕ
  helpTrouble : ℕ
  helpResources : Bool
  helpExperience : Bool
  helpExamples : Bool
  helpTime : Bool
  helpCost : Bool
  helpStructured : Bool
  helpProsCons : Bool
  helpWarnings : Bool
  helpFollowup : Bool
  compSelfPromo : Bool
  compSpamInd : Bool
  compPersonalInfo : Bool
  compHarass : Bool
  compVoteManip : Bool
  compAffiliate : Bool
  compCaps : ℕ
  compPunct : ℕ
  compRepeat : ℕ
  compAllCaps : ℕ
  compSpam : ℕ
  compEdit : Bool
  compTldr : Bool
deriving DecidableEq

/-- The five dimension scores, in the insertion order of the Python `scores` dict. -/
structure Scores where
  relevance : ℚ
  readability : ℚ
  authenticity : ℚ
  helpfulness : ℚ
  compliance : ℚ
deriving DecidableEq

/-- The values of the `scores` dict in insertion order, as iterated by
`scores.values()` in the source. -/
def Scores.values (s : Scores) : List ℚ :=
  [s.relevance, s.readability, s.authenticity, s.helpfulness, s.compliance]

/-- Words checked by `_score_relevance` for direct addressing of the poster. -/
def addressingWords : List String := ["you", "your", "op", "original poster"]

/-- Words checked by `_score_relevance` for question answering. -/
def answerWords : List String := ["yes", "no", "try", "use", "check"]

/-- Embedding of `ResponseQualityScorer._score_relevance`.  The `context`
parameter is accepted and unused, exactly as in the source. -/
def score_relevance (response : String) (post_title : String)
    (context : Option String) : ℚ × List String :=
  if post_title = "" then (50, [])
  else
    let respLower := lowerL response.toList
    let postWords := (regexWords (lowerL post_title.toList)).dedup
    let responseWords := (regexWords respLower).dedup
    let commonWords := postWords.filter (fun w => responseWords.contains w)
    let overlapRatio : ℚ := (commonWords.length : ℚ) / (postWords.length : ℚ)
    let overlapAdd : ℚ := if 0 < postWords.length then overlapRatio * 30 else 0
    let overlapFb : List String :=
      if 0 < postWords.length then
        if 3/10 < overlapRatio then ["Good keyword relevance to original post"]
        else if overlapRatio < 1/10 then
          ["Low keyword relevance - consider addressing the main topic"]
        else []
      else []
    let addressing := addressingWords.any (fun w => inStr w respLower)
    let addrAdd : ℚ := if addressing then 10 else 0
    let addrFb : List String := if addressing then ["Directly addresses the poster"] else []
    let question := inStr "?" post_title.toList && answerWords.any (fun w => inStr w respLower)
    let questAdd : ℚ := if question then 10 else 0
    let questFb : List String := if question then ["Attempts to answer the question"] else []
    (clamp100 (50 + overlapAdd + addrAdd + questAdd), overlapFb ++ addrFb ++ questFb)

/-- Score and feedback contribution of the Flesch reading-ease branch in
`_score_readability`: the body of the `try` block.  `none` models the case
where `flesch_reading_ease` raises and the bare `except: pass` swallows the
exception, so no adjustment and no feedback are produced. -/
def fleschAdj : Option ℚ → ℚ × List String
  | none => (0, [])
  | some f =>
    if 60 ≤ f ∧ f ≤ 80 then (30, ["Excellent readability level"])
    else if (50 ≤ f ∧ f < 60) ∨ (80 < f ∧ f ≤ 90) then (20, ["Good readability level"])
    else if f < 30 then (-20, ["Text may be too complex - consider simplifying"])
    else if 90 < f then (-10, ["Text may be too simple"])
    else (0, [])

/-- Length-check contribution of `_score_readability`. -/
def readability_length_adj (response : String) : ℚ × List String :=
  let wc := (pyWords response.toList).length
  if 20 ≤ wc ∧ wc ≤ 150 then (15, ["Good response length"])
  else if wc < 10 then (-20, ["Response too short"])
  else if 300 < wc then (-10, ["Response may be too long for Reddit"])
  else (0, [])

/-- Average sentence length used by `_score_readability`: the response is
split on the period character (keeping empty chunks, as Python
`str.split('.')` does) and the word counts are averaged. -/
def avgSentenceLength (response : String) : ℚ :=
  let sentences := pySplitP (fun c => c == '.') response.toList
  ((sentences.map (fun s => ((pyWords s).length : ℚ))).sum) / (sentences.length : ℚ)

/-- Sentence-structure contribution of `_score_readability`. -/
def readability_sentence_adj (response : String) : ℚ × List String :=
  if 10 ≤ avgSentenceLength response ∧ avgSentenceLength response ≤ 20 then
    (5, ["Good sentence length"])
  else (0, [])

/-- Embedding of `ResponseQualityScorer._score_readability`. -/
def score_readability (flesch : Option ℚ) (response : String) : ℚ × List String :=
  (clamp100 (50 + (fleschAdj flesch).1 + (readability_length_adj response).1
      + (readability_sentence_adj response).1),
   (fleschAdj flesch).2 ++ (readability_length_adj response).2
      ++ (readability_sentence_adj response).2)

/-- The `experience_indicators` list of `_score_authenticity`, checked by
plain substring containment on the lower-cased response. -/
def experienceIndicators : List String := ["i", "my", "me", "personally", "in my experience"]

/-- The `formal_indicators` list of `_score_authenticity`. -/
def formalIndicators : List String :=
  ["furthermore", "moreover", "consequently", "therefore", "thus"]

/-- The personal-perspective check of `_score_authenticity`:
`any(indicator in response_lower for indicator in experience_indicators)`. -/
def hasPersonalPerspective (response : String) : Bool :=
  experienceIndicators.any (fun w => inStr w (lowerL response.toList))

/-- Number of formal indicators contained in the lower-cased response. -/
def formalCount (response : String) : ℕ :=
  (formalIndicators.filter (fun w => inStr w (lowerL response.toList))).length

/-- Embedding of `ResponseQualityScorer._score_authenticity`. -/
def score_authenticity (rf : RegexFeatures) (response : String) : ℚ × List String :=
  let posAdd : ℚ := min ((rf.authPositive : ℚ) * 8) 25
  let redditAdd : ℚ := min ((rf.authReddit : ℚ) * 5) 15
  let redditFb : List String :=
    if 0 < rf.authReddit then ["Uses appropriate Reddit tone"] else []
  let negFb : List String :=
    if 0 < rf.authNegative then ["Contains promotional or spam-like language"] else []
  let persAdd : ℚ := if hasPersonalPerspective response then 10 else 0
  let persFb : List String :=
    if hasPersonalPerspective response then ["Includes personal perspective"] else []
  let formalSub : ℚ := if 2 < formalCount response then 10 else 0
  let formalFb : List String :=
    if 2 < formalCount response then ["May sound too formal for Reddit"] else []
  (clamp100 (50 + posAdd + redditAdd - (rf.authNegative : ℚ) * 15 + persAdd - formalSub),
   redditFb ++ negFb ++ persFb ++ formalFb)

/-- The `action_words` list of `_score_helpfulness`. -/
def actionWords : List String :=
  ["try", "use", "check", "visit", "download", "install", "contact",
   "search", "look", "find", "ask", "call", "email", "apply", "start"]

/-- Vague-response phrases penalized by `_score_helpfulness`. -/
def vaguePhrases : List String :=
  ["it depends", "maybe", "possibly", "might work", "not sure", "hard to say"]

/-- Dismissive-language phrases penalized by `_score_helpfulness`. -/
def dismissivePhrases : List String :=
  ["just google it", "figure it out", "obvious", "duh", "everyone knows"]

/-- Non-answer phrases penalized by `_score_helpfulness`. -/
def nonAnswerPhrases : List String :=
  ["i don" ++ apo ++ "t know", "no idea", "can" ++ apo ++ "t help", "not my problem"]

/-- Circular-reasoning phrases penalized by `_score_helpfulness`. -/
def circularPhrases : List String :=
  ["because it is", "that" ++ apo ++ "s just how", "it works that way"]

/-- Comprehensive-response indicators rewarded by `_score_helpfulness`. -/
def comprehensiveIndicators : List String :=
  ["multiple solutions", "different approaches", "various options",
   "depends on", "context matters", "several ways"]

/-- Score contribution of one high-value element in `_score_helpfulness`:
`min(matches * points, points * 2)` when there is at least one match. -/
def hvAdd (m : ℕ) (points : ℚ) : ℚ :=
  if 0 < m then min ((m : ℚ) * points) (points * 2) else 0

/-- Feedback contribution of one high-value element in `_score_helpfulness`. -/
def hvFb (m : ℕ) (name : String) : List String :=
  if 0 < m then ["Includes " ++ name ++ " (" ++ Nat.repr m ++ " instances)"] else []

/-- Embedding of `ResponseQualityScorer._score_helpfulness`. -/
def score_helpfulness (rf : RegexFeatures) (response : String) : ℚ × List String :=
  let respLower := lowerL response.toList
  let padded := ' ' :: respLower ++ [' ']
  let actionCount := (actionWords.filter (fun w => inStr (" " ++ w ++ " ") padded)).length
  let vagueM := (vaguePhrases.filter (fun p => inStr p respLower)).length
  let dismissM := (dismissivePhrases.filter (fun p => inStr p respLower)).length
  let nonAnsM := (nonAnswerPhrases.filter (fun p => inStr p respLower)).length
  let circM := (circularPhrases.filter (fun p => inStr p respLower)).length
  let wc := (pyWords response.toList).length
  let hv : ℚ := hvAdd rf.helpSteps 12 + hvAdd rf.helpRecs 10 + hvAdd rf.helpExpl 8
      + hvAdd rf.helpAlts 10 + hvAdd rf.helpTrouble 12
  let hvFbs := hvFb rf.helpSteps "specific steps/instructions"
      ++ hvFb rf.helpRecs "concrete recommendations"
      ++ hvFb rf.helpExpl "detailed explanations"
      ++ hvFb rf.helpAlts "multiple alternatives"
      ++ hvFb rf.helpTrouble "troubleshooting help"
  let mv : ℚ := (if rf.helpResources then 8 else 0) + (if rf.helpExperience then 6 else 0)
      + (if rf.helpExamples then 6 else 0) + (if rf.helpTime then 5 else 0)
      + (if rf.helpCost then 5 else 0)
  let mvFbs := (if rf.helpResources then ["Includes external resources"] else [])
      ++ (if rf.helpExperience then ["Includes personal experience"] else [])
      ++ (if rf.helpExamples then ["Includes specific examples"] else [])
      ++ (if rf.helpTime then ["Includes time estimates"] else [])
      ++ (if rf.helpCost then ["Includes cost information"] else [])
  let qp : ℚ := (if rf.helpStructured then 8 else 0) + (if rf.helpProsCons then 10 else 0)
      + (if rf.helpWarnings then 6 else 0) + (if rf.helpFollowup then 5 else 0)
  let qpFbs := (if rf.helpStructured then ["Shows structured approach"] else [])
      ++ (if rf.helpProsCons then ["Shows pros and cons"] else [])
      ++ (if rf.helpWarnings then ["Shows warnings/cautions"] else [])
      ++ (if rf.helpFollowup then ["Shows follow-up support"] else [])
  let actionAdd : ℚ := if 0 < actionCount then min ((actionCount : ℚ) * 3) 15 else 0
  let actionFb : List String :=
    if 0 < actionCount then
      ["Provides actionable advice (" ++ Nat.repr actionCount ++ " action words)"]
    else []
  let wordAdd : ℚ :=
    if 50 ≤ wc ∧ wc ≤ 200 then 10
    else if 200 < wc ∧ wc ≤ 300 then 5
    else if wc < 20 then -10
    else 0
  let wordFb : List String :=
    if 50 ≤ wc ∧ wc ≤ 200 then ["Good detail level"]
    else if 200 < wc ∧ wc ≤ 300 then ["Comprehensive detail"]
    else if wc < 20 then ["Too brief to be helpful"]
    else []
  let unAdd : ℚ := (if 0 < vagueM then (-8 : ℚ) * (vagueM : ℚ) else 0)
      + (if 0 < dismissM then (-15 : ℚ) * (dismissM : ℚ) else 0)
      + (if 0 < nonAnsM then (-12 : ℚ) * (nonAnsM : ℚ) else 0)
      + (if 0 < circM then (-6 : ℚ) * (circM : ℚ) else 0)
  let unFbs :=
    (if 0 < vagueM then
      ["Contains vague responses (" ++ Nat.repr vagueM ++ " instances)"] else [])
    ++ (if 0 < dismissM then
      ["Contains dismissive language (" ++ Nat.repr dismissM ++ " instances)"] else [])
    ++ (if 0 < nonAnsM then
      ["Contains non-answers (" ++ Nat.repr nonAnsM ++ " instances)"] else [])
    ++ (if 0 < circM then
      ["Contains circular reasoning (" ++ Nat.repr circM ++ " instances)"] else [])
  let scoreBefore : ℚ := 50 + hv + mv + qp + actionAdd + wordAdd + unAdd
  let comprehensive := comprehensiveIndicators.any (fun p => inStr p respLower)
  let comprAdd : ℚ := if 80 ≤ scoreBefore ∧ comprehensive = true then 5 else 0
  let comprFb : List String :=
    if 80 ≤ scoreBefore ∧ comprehensive = true then
      ["Acknowledges complexity and provides comprehensive help"]
    else []
  let finalScore := scoreBefore + comprAdd
  let finalFb : List String :=
    if 85 ≤ finalScore then ["Exceptionally helpful response"]
    else if 70 ≤ finalScore then ["Very helpful response"]
    else if finalScore < 50 then
      ["Limited helpfulness - consider adding more specific advice"]
    else []
  (clamp100 finalScore,
   hvFbs ++ mvFbs ++ qpFbs ++ actionFb ++ wordFb ++ unFbs ++ comprFb ++ finalFb)

/-- Respectful-language phrases rewarded by `_score_compliance`. -/
def complianceRespectful : List String := ["please", "thank you", "thanks", "appreciate"]

/-- Helpful phrases rewarded by `_score_compliance`. -/
def complianceHelpfulPhrases : List String :=
  ["hope this helps", "good luck", "let me know", "feel free"]

/-- Community-spirit phrases rewarded by `_score_compliance`. -/
def complianceCommunity : List String :=
  ["welcome to reddit", "great community", "fellow redditor"]

/-- Source-attribution phrases rewarded by `_score_compliance`. -/
def complianceAttribution : List String :=
  ["source:", "according to", "based on", "reference:"]

/-- Penalty of one major violation in `_score_compliance`. -/
def majorPenalty (b : Bool) : ℚ := if b then 25 else 0

/-- Feedback of one major violation in `_score_compliance`. -/
def majorFb (b : Bool) (name : String) : List String :=
  if b then ["Major violation: " ++ name ++ " detected"] else []

/-- Penalty of one minor violation in `_score_compliance`:
`min(matches * 5, 15)` when there is at least one match. -/
def minorPenalty (m : ℕ) : ℚ := if 0 < m then min ((m : ℚ) * 5) 15 else 0

/-- Feedback of one minor violation in `_score_compliance`. -/
def minorFb (m : ℕ) (name : String) : List String :=
  if 0 < m then
    ["Minor violation: " ++ name ++ " (" ++ Nat.repr m ++ " instances)"]
  else []

/-- Bonus of one positive-indicator group in `_score_compliance`. -/
def positiveAdd (respLower : List Char) (phrases : List String) : ℚ :=
  if phrases.any (fun p => inStr p respLower) then 3 else 0

/-- Feedback of one positive-indicator group in `_score_compliance`. -/
def positiveFb (respLower : List Char) (phrases : List String) (name : String) : List String :=
  if phrases.any (fun p => inStr p respLower) then ["Positive indicator: " ++ name] else []

/-- Embedding of `ResponseQualityScorer._score_compliance`. -/
def score_compliance (rf : RegexFeatures) (response : String) : ℚ × List String :=
  let respLower := lowerL response.toList
  let wc := (pyWords response.toList).length
  let excl := response.toList.count '!'
  let majorsSub : ℚ := majorPenalty rf.compSelfPromo + majorPenalty rf.compSpamInd
      + majorPenalty rf.compPersonalInfo + majorPenalty rf.compHarass
      + majorPenalty rf.compVoteManip + majorPenalty rf.compAffiliate
  let majorsFbs := majorFb rf.compSelfPromo "self-promotion"
      ++ majorFb rf.compSpamInd "spam indicators"
      ++ majorFb rf.compPersonalInfo "personal info"
      ++ majorFb rf.compHarass "harassment"
      ++ majorFb rf.compVoteManip "vote manipulation"
      ++ majorFb rf.compAffiliate "affiliate links"
  let minorsSub : ℚ := minorPenalty rf.compCaps + minorPenalty rf.compPunct
      + minorPenalty rf.compRepeat + minorPenalty rf.compAllCaps
  let minorsFbs := minorFb rf.compCaps "excessive caps"
      ++ minorFb rf.compPunct "excessive punctuation"
      ++ minorFb rf.compRepeat "repetitive text"
      ++ minorFb rf.compAllCaps "all caps words"
  let spamSub : ℚ := if 0 < rf.compSpam then (rf.compSpam : ℚ) * 10 else 0
  let spamFb : List String :=
    if 0 < rf.compSpam then
      ["Spam-like patterns detected (" ++ Nat.repr rf.compSpam ++ " instances)"]
    else []
  let posAdd : ℚ := positiveAdd respLower complianceRespectful
      + positiveAdd respLower complianceHelpfulPhrases
      + positiveAdd respLower complianceCommunity
      + positiveAdd respLower complianceAttribution
  let posFbs := positiveFb respLower complianceRespectful "respectful language"
      ++ positiveFb respLower complianceHelpfulPhrases "helpful phrases"
      ++ positiveFb respLower complianceCommunity "community spirit"
      ++ positiveFb respLower complianceAttribution "source attribution"
  let wordAdd : ℚ :=
    if 20 ≤ wc ∧ wc ≤ 300 then 5
    else if 500 < wc then -5
    else if wc < 10 then -10
    else 0
  let wordFb : List String :=
    if 20 ≤ wc ∧ wc ≤ 300 then ["Appropriate response length"]
    else if 500 < wc then ["Response may be too long for Reddit"]
    else if wc < 10 then ["Response too short to be helpful"]
    else []
  let exclAdd : ℚ := if excl ≤ 2 then 3 else if 5 < excl then -5 else 0
  let exclFb : List String :=
    if excl ≤ 2 then [] else if 5 < excl then ["Overly excited tone"] else []
  let editAdd : ℚ := if rf.compEdit then 5 else 0
  let editFb : List String :=
    if rf.compEdit then ["Follows Reddit edit etiquette"] else []
  let tldrAdd : ℚ := if rf.compTldr then 3 else 0
  let tldrFb : List String :=
    if rf.compTldr then ["Includes helpful summary"] else []
  let total : ℚ := 85 - majorsSub - minorsSub - spamSub + posAdd + wordAdd
      + exclAdd + editAdd + tldrAdd
  let finalFb : List String :=
    if 90 ≤ total then ["Excellent compliance with Reddit guidelines"]
    else if 80 ≤ total then ["Good compliance with minor areas for improvement"]
    else if total < 60 then ["Significant compliance issues require attention"]
    else []
  (clamp100 total,
   majorsFbs ++ minorsFbs ++ spamFb ++ posFbs ++ wordFb ++ exclFb
     ++ editFb ++ tldrFb ++ finalFb)

/-- Embedding of `ResponseQualityScorer._get_grade`. -/
def get_grade (score : ℚ) : String :=
  if 95 ≤ score then "A+"
  else if 90 ≤ score then "A"
  else if 85 ≤ score then "A-"
  else if 80 ≤ score then "B+"
  else if 75 ≤ score then "B"
  else if 70 ≤ score then "B-"
  else if 65 ≤ score then "C+"
  else if 60 ≤ score then "C"
  else if 55 ≤ score then "C-"
  else if 50 ≤ score then "D"
  else "F"

/-- Rank of a letter grade under the ordering A+ > A > A- > ... > D > F. -/
def gradeRank : String → ℕ
  | "A+" => 10
  | "A" => 9
  | "A-" => 8
  | "B+" => 7
  | "B" => 6
  | "B-" => 5
  | "C+" => 4
  | "C" => 3
  | "C-" => 2
  | "D" => 1
  | _ => 0

/-- Overall-level flags of `_generate_quality_flags`: the if/elif chain on
the overall score. -/
def overall_quality_flags (overall : ℚ) : List String :=
  if QualityThresholds.EXCELLENT ≤ overall then ["EXCELLENT_QUALITY"]
  else if QualityThresholds.AUTO_APPROVE ≤ overall then ["AUTO_APPROVE_CANDIDATE"]
  else if overall ≤ QualityThresholds.REJECT then ["REJECT_CANDIDATE"]
  else []

/-- Dimension-specific flags of `_generate_quality_flags`, appended in
source order. -/
def dimension_quality_flags (scores : Scores) : List String :=
  (if scores.relevance < QualityThresholds.RELEVANCE_MIN then ["LOW_RELEVANCE"] else [])
  ++ (if scores.readability < QualityThresholds.READABILITY_MIN then ["POOR_READABILITY"] else [])
  ++ (if scores.authenticity < QualityThresholds.AUTHENTICITY_MIN then ["INAUTHENTIC_TONE"] else [])
  ++ (if scores.helpfulness < QualityThresholds.HELPFULNESS_MIN then ["LOW_HELPFULNESS"] else [])
  ++ (if scores.compliance < QualityThresholds.COMPLIANCE_MIN then ["COMPLIANCE_RISK"] else [])

/-- Special quality-indicator flags of `_generate_quality_flags`. -/
def special_quality_flags (scores : Scores) : List String :=
  (if scores.values.all (fun x => decide (85 ≤ x)) then ["ALL_DIMENSIONS_EXCELLENT"] else [])
  ++ (if scores.values.any (fun x => decide (x ≤ 40)) then ["CRITICAL_DIMENSION_FAILURE"] else [])

/-- Embedding of `ResponseQualityScorer._generate_quality_flags`: the
overall-level flags, the dimension flags and the special flags appended in
the order the source appends them. -/
def generate_quality_flags (scores : Scores) (overall : ℚ) : List String :=
  overall_quality_flags overall ++ dimension_quality_flags scores
    ++ special_quality_flags scores

/-- The `critical_flags` list of `_requires_manual_review`. -/
def criticalFlags : List String :=
  ["COMPLIANCE_RISK", "CRITICAL_DIMENSION_FAILURE", "REJECT_CANDIDATE"]

/-- Embedding of `ResponseQualityScorer._requires_manual_review`. -/
def requires_manual_review (scores : Scores) (overall : ℚ) (flags : List String) : Bool :=
  if overall ≤ QualityThresholds.REJECT then true
  else if criticalFlags.any (fun f => flags.contains f) then true
  else if scores.compliance < QualityThresholds.COMPLIANCE_MIN then true
  else if 2 ≤ (scores.values.filter (fun x => decide (x < 60))).length then true
  else if QualityThresholds.MANUAL_REVIEW ≤ overall ∧ overall < QualityThresholds.AUTO_APPROVE then true
  else false

/-- Relevance improvement suggestions from `_generate_improvement_suggestions`. -/
def relevanceSuggestions : List String :=
  ["Include more keywords from the original post title",
   "Directly address the poster" ++ apo ++ "s question or concern",
   "Reference specific details mentioned in the original post"]

/-- Readability improvement suggestions from `_generate_improvement_suggestions`. -/
def readabilitySuggestions : List String :=
  ["Use shorter, simpler sentences (aim for 15-20 words per sentence)",
   "Break up long paragraphs into smaller chunks",
   "Use common words instead of complex vocabulary",
   "Add bullet points or numbered lists for clarity"]

/-- Authenticity improvement suggestions from `_generate_improvement_suggestions`. -/
def authenticitySuggestions : List String :=
  ["Add personal experience or anecdotes",
   "Use more conversational language and contractions",
   "Include Reddit-appropriate abbreviations (IMO, TBH, etc.)",
   "Avoid overly formal or corporate language"]

/-- Helpfulness improvement suggestions from `_generate_improvement_suggestions`. -/
def helpfulnessSuggestions : List String :=
  ["Provide specific, actionable steps or recommendations",
   "Include relevant links or resources",
   "Offer alternative solutions or approaches",
   "Explain the reasoning behind your suggestions"]

/-- Compliance improvement suggestions from `_generate_improvement_suggestions`. -/
def complianceSuggestions : List String :=
  ["Remove any promotional or sales language",
   "Avoid excessive capitalization or punctuation",
   "Ensure content follows Reddit community guidelines",
   "Remove any personal contact information or links"]

/-- Remove duplicates while preserving first-seen order, as the dedup loop at
the end of `_generate_improvement_suggestions` does. -/
def dedupFirstAux (seen : List String) : List String → List String
  | [] => []
  | a :: l =>
    if seen.contains a then dedupFirstAux seen l
    else a :: dedupFirstAux (a :: seen) l

/-- Embedding of `ResponseQualityScorer._generate_improvement_suggestions`. -/
def generate_improvement_suggestions (scores : Scores) (flags : List String) : List String :=
  let base :=
    (if scores.relevance < QualityThresholds.RELEVANCE_MIN then relevanceSuggestions else [])
    ++ (if scores.readability < QualityThresholds.READABILITY_MIN then readabilitySuggestions else [])
    ++ (if scores.authenticity < QualityThresholds.AUTHENTICITY_MIN then authenticitySuggestions else [])
    ++ (if scores.helpfulness < QualityThresholds.HELPFULNESS_MIN then helpfulnessSuggestions else [])
    ++ (if scores.compliance < QualityThresholds.COMPLIANCE_MIN then complianceSuggestions else [])
    ++ (if flags.contains "LOW_RELEVANCE" then
         ["Focus more directly on the original poster" ++ apo ++ "s specific question"] else [])
    ++ (if flags.contains "POOR_READABILITY" then
         ["Simplify language and sentence structure for better comprehension"] else [])
    ++ (if flags.contains "INAUTHENTIC_TONE" then
         ["Adopt a more natural, conversational Reddit tone"] else [])
    ++ (if flags.contains "COMPLIANCE_RISK" then
         ["Review content for potential policy violations"] else [])
  (dedupFirstAux [] base).take 8

/-- The fixed aggregation weights of `score_response`, in dict insertion order. -/
def weights : List (String × ℚ) :=
  [("relevance", 0.25), ("readability", 0.15), ("authenticity", 0.20),
   ("helpfulness", 0.25), ("compliance", 0.15)]

/-- The weighted overall score `sum(scores[key] * weights[key] for key in scores)`. -/
def weightedSum (s : Scores) : ℚ :=
  s.relevance * 0.25 + s.readability * 0.15 + s.authenticity * 0.20
    + s.helpfulness * 0.25 + s.compliance * 0.15

/-- The `scoring_metadata` entry of a full scoring result: the weights used,
the thresholds used, and the `scored_at` timestamp string. -/
structure ScoringMetadata where
  weights : List (String × ℚ)
  auto_approve : ℚ
  manual_review : ℚ
  reject : ℚ
  scored_at : String
deriving DecidableEq

/-- The result dictionary returned by `score_response`.  `scoring_metadata`
is optional because the short-circuit dictionary at the top of
`score_response` carries no such key. -/
structure QualityResult where
  overall_score : ℚ
  breakdown : Scores
  feedback : List String
  grade : String
  quality_flags : List String
  manual_review_required : Bool
  improvement_suggestions : List String
  scoring_metadata : Option ScoringMetadata
deriving DecidableEq

/-- The dictionary returned by the degenerate-input short circuit at the top
of `score_response`. -/
def short_circuit_result : QualityResult :=
  { overall_score := 0
    breakdown := ⟨0, 0, 0, 0, 0⟩
    feedback := ["Response too short or empty"]
    grade := "F"
    quality_flags := ["TOO_SHORT"]
    manual_review_required := true
    improvement_suggestions := ["Provide a more substantial response with at least 20 words"]
    scoring_metadata := none }

/-- Embedding of `ResponseQualityScorer.score_response`.  `rf` carries the
per-call regex/textstat results (see `RegexFeatures`), `scored_at` the
wall-clock timestamp string that the source obtains from
`datetime.utcnow().isoformat()`. -/
def score_response (rf : RegexFeatures) (scored_at : String) (response : String)
    (context : Option String) (post_title : String) : QualityResult :=
  if response = "" ∨ (pyStrip response.toList).length < 10 then short_circuit_result
  else
    let sc : Scores :=
      { relevance := (score_relevance response post_title context).1
        readability := (score_readability rf.flesch response).1
        authenticity := (score_authenticity rf response).1
        helpfulness := (score_helpfulness rf response).1
        compliance := (score_compliance rf response).1 }
    let fb := (score_relevance response post_title context).2
      ++ (score_readability rf.flesch response).2
      ++ (score_authenticity rf response).2
      ++ (score_helpfulness rf response).2
      ++ (score_compliance rf response).2
    let overall := weightedSum sc
    let flags := generate_quality_flags sc overall
    { overall_score := round1 overall
      breakdown := sc
      feedback := fb
      grade := get_grade overall
      quality_flags := flags
      manual_review_required := requires_manual_review sc overall flags
      improvement_suggestions := generate_improvement_suggestions sc flags
      scoring_metadata := some
        { weights := weights
          auto_approve := QualityThresholds.AUTO_APPROVE
          manual_review := QualityThresholds.MANUAL_REVIEW
          reject := QualityThresholds.REJECT
          scored_at := scored_at } }

end QualityScoring

namespace QualityScoring

/-- Regex/textstat side inputs that are all zero, false or absent: the values
the Python patterns produce on a text that matches none of them. -/
def rf0 : RegexFeatures :=
  { flesch := none, authPositive := 0, authReddit := 0, authNegative := 0,
    helpSteps := 0, helpRecs := 0, helpExpl := 0, helpAlts := 0, helpTrouble := 0,
    helpResources := false, helpExperience := false, helpExamples := false,
    helpTime := false, helpCost := false, helpStructured := false,
    helpProsCons := false, helpWarnings := false, helpFollowup := false,
    compSelfPromo := false, compSpamInd := false, compPersonalInfo := false,
    compHarass := false, compVoteManip := false, compAffiliate := false,
    compCaps := 0, compPunct := 0, compRepeat := 0, compAllCaps := 0,
    compSpam := 0, compEdit := false, compTldr := false }

/-- Concrete high-quality example response used to exercise the full scoring
pipeline.  It contains the literal word "you", first-person language, and
several helpful phrases, and avoids every penalty pattern. -/
def respEx : String :=
  "Thanks for sharing. I recommend this guide because it worked well in my experience. You should check the settings and use the backup option step by step. The community here will appreciate a clear answer like this."

/-- Post title paired with `respEx`. -/
def titleEx : String := "you"

/-- Timestamp string passed to the example scoring calls. -/
def tsEx : String := "2024-01-01T00:00:00"

/-- Regex/textstat side inputs matching what the Python patterns produce on
`respEx`: five of the seven positive authenticity patterns match (thanks,
this, guide, experience/worked, recommend), one Reddit-tone pattern
(community), and exactly one negative authenticity indicator — the
excessive-caps pattern of four or more letters, which under re.IGNORECASE
also matches lower-case runs such as "thanks" (the compliance minor
violations run the same pattern on the raw response without IGNORECASE, so
they stay zero).  For helpfulness there are three concrete-recommendation
hits (recommend, check, use), one detailed-explanation hit (because), the
personal-experience and specific-example medium patterns (in my experience,
like) and the structured quality pattern (step by step).  The Flesch
reading ease 74 is the value of the standard formula for this text
(37 words, 4 sentences, about 54 syllables); the evaluation below depends
on it only through membership in the reward band [60, 80].  Every other
pattern produces zero or false. -/
def rfEx : RegexFeatures := { rf0 with
  flesch := some 74
  authPositive := 5
  authReddit := 1
  authNegative := 1
  helpRecs := 3
  helpExpl := 1
  helpExperience := true
  helpExamples := true
  helpStructured := true }

/-- Lower bound of the dimension clamp. -/
lemma clamp100_nonneg (q : ℚ) : 0 ≤ clamp100 q := by
  unfold clamp100
  exact le_min (by norm_num) (le_max_left 0 q)

/-- Upper bound of the dimension clamp. -/
lemma clamp100_le (q : ℚ) : clamp100 q ≤ 100 := min_le_left 100 (max 0 q)

/-- Relevance scores stay in the unit score range. -/
lemma score_relevance_bounds (r t : String) (c : Option String) :
    0 ≤ (score_relevance r t c).1 ∧ (score_relevance r t c).1 ≤ 100 := by
  unfold score_relevance
  split_ifs with h
  · norm_num
  · exact ⟨clamp100_nonneg _, clamp100_le _⟩

/-- Readability scores stay in the unit score range. -/
lemma score_readability_bounds (fl : Option ℚ) (r : String) :
    0 ≤ (score_readability fl r).1 ∧ (score_readability fl r).1 ≤ 100 :=
  ⟨clamp100_nonneg _, clamp100_le _⟩

/-- Authenticity scores stay in the unit score range. -/
lemma score_authenticity_bounds (rf : RegexFeatures) (r : String) :
    0 ≤ (score_authenticity rf r).1 ∧ (score_authenticity rf r).1 ≤ 100 :=
  ⟨clamp100_nonneg _, clamp100_le _⟩

/-- Helpfulness scores stay in the unit score range. -/
lemma score_helpfulness_bounds (rf : RegexFeatures) (r : String) :
    0 ≤ (score_helpfulness rf r).1 ∧ (score_helpfulness rf r).1 ≤ 100 :=
  ⟨clamp100_nonneg _, clamp100_le _⟩

/-- Compliance scores stay in the unit score range. -/
lemma score_compliance_bounds (rf : RegexFeatures) (r : String) :
    0 ≤ (score_compliance rf r).1 ∧ (score_compliance rf r).1 ≤ 100 :=
  ⟨clamp100_nonneg _, clamp100_le _⟩

/-- The weighted aggregate of five scores in [0,100] is again in [0,100]. -/
lemma weightedSum_bounds {s : Scores}
    (h1 : 0 ≤ s.relevance) (h1u : s.relevance ≤ 100)
    (h2 : 0 ≤ s.readability) (h2u : s.readability ≤ 100)
    (h3 : 0 ≤ s.authenticity) (h3u : s.authenticity ≤ 100)
    (h4 : 0 ≤ s.helpfulness) (h4u : s.helpfulness ≤ 100)
    (h5 : 0 ≤ s.compliance) (h5u : s.compliance ≤ 100) :
    0 ≤ weightedSum s ∧ weightedSum s ≤ 100 := by
  unfold weightedSum
  constructor <;> nlinarith

/-- Rounding to one decimal place preserves the score range. -/
lemma round1_bounds {q : ℚ} (h0 : 0 ≤ q) (h1 : q ≤ 100) :
    0 ≤ round1 q ∧ round1 q ≤ 100 := by
  unfold round1
  constructor
  · apply div_nonneg _ (by norm_num)
    have hz : (0 : ℤ) ≤ round (q * 10) := by
      rw [round_eq]
      apply Int.le_floor.mpr
      push_cast
      linarith
    exact_mod_cast hz
  · rw [div_le_iff₀ (by norm_num : (0 : ℚ) < 10)]
    have hub : round (q * 10) ≤ 1000 := by
      rw [round_eq]
      have hf : ⌊q * 10 + 1 / 2⌋ ≤ ⌊(1000.5 : ℚ)⌋ := Int.floor_le_floor (by linarith)
      have he : ⌊(1000.5 : ℚ)⌋ = 1000 := by
        rw [Int.floor_eq_iff]
        norm_num
      rw [he] at hf
      exact hf
    calc ((round (q * 10) : ℤ) : ℚ) ≤ ((1000 : ℤ) : ℚ) := by exact_mod_cast hub
      _ = 100 * 10 := by norm_num

end QualityScoring

namespace QualityScoring

/-- C1: for every input string (including empty, whitespace-only, very long,
non-ASCII and punctuation-only strings) and every regex/textstat outcome,
`score_response` returns a QualityResult — totality is intrinsic to the
embedding — and each of the five dimension scores of the result as well as
its overall_score lie in [0, 100]. -/
theorem C1_score_response_total_and_clamped (rf : RegexFeatures) (ts response : String)
    (ctx : Option String) (title : String) :
    0 ≤ (score_response rf ts response ctx title).breakdown.relevance ∧
    (score_response rf ts response ctx title).breakdown.relevance ≤ 100 ∧
    0 ≤ (score_response rf ts response ctx title).breakdown.readability ∧
    (score_response rf ts response ctx title).breakdown.readability ≤ 100 ∧
    0 ≤ (score_response rf ts response ctx title).breakdown.authenticity ∧
    (score_response rf ts response ctx title).breakdown.authenticity ≤ 100 ∧
    0 ≤ (score_response rf ts response ctx title).breakdown.helpfulness ∧
    (score_response rf ts response ctx title).breakdown.helpfulness ≤ 100 ∧
    0 ≤ (score_response rf ts response ctx title).breakdown.compliance ∧
    (score_response rf ts response ctx title).breakdown.compliance ≤ 100 ∧
    0 ≤ (score_response rf ts response ctx title).overall_score ∧
    (score_response rf ts response ctx title).overall_score ≤ 100 := by
  unfold score_response
  split_ifs with h
  · norm_num [short_circuit_result]
  · obtain ⟨a1, a2⟩ := score_relevance_bounds response title ctx
    obtain ⟨b1, b2⟩ := score_readability_bounds rf.flesch response
    obtain ⟨c1, c2⟩ := score_authenticity_bounds rf response
    obtain ⟨d1, d2⟩ := score_helpfulness_bounds rf response
    obtain ⟨e1, e2⟩ := score_compliance_bounds rf response
    obtain ⟨w1, w2⟩ := weightedSum_bounds
      (s := ⟨(score_relevance response title ctx).1, (score_readability rf.flesch response).1,
             (score_authenticity rf response).1, (score_helpfulness rf response).1,
             (score_compliance rf response).1⟩) a1 a2 b1 b2 c1 c2 d1 d2 e1 e2
    obtain ⟨r1, r2⟩ := round1_bounds w1 w2
    exact ⟨a1, a2, b1, b2, c1, c2, d1, d2, e1, e2, r1, r2⟩

/-- C2: every empty or short-after-trimming input short-circuits
`score_response` to the fixed degenerate dictionary: overall_score 0, all
five dimension scores 0, grade F, quality flags [TOO_SHORT],
manual_review_required true and a single-element feedback list. -/
theorem C2_short_circuit (rf : RegexFeatures) (ts : String) (ctx : Option String)
    (title response : String)
    (h : response = "" ∨ (pyStrip response.toList).length < 10) :
    score_response rf ts response ctx title = short_circuit_result ∧
    short_circuit_result.overall_score = 0 ∧
    short_circuit_result.breakdown = ⟨0, 0, 0, 0, 0⟩ ∧
    short_circuit_result.grade = "F" ∧
    short_circuit_result.quality_flags = ["TOO_SHORT"] ∧
    short_circuit_result.manual_review_required = true ∧
    short_circuit_result.feedback = ["Response too short or empty"] := by
  refine ⟨?_, rfl, rfl, rfl, rfl, rfl, rfl⟩
  unfold score_response
  rw [if_pos h]

/-- Witness for C2 at the concrete input "ab" of the claim. -/
theorem C2_short_circuit_witness :
    (("ab" : String) = "" ∨ (pyStrip ("ab" : String).toList).length < 10) ∧
    score_response rf0 tsEx "ab" none "" = short_circuit_result :=
  ⟨Or.inr (by decide),
   (C2_short_circuit rf0 tsEx none "" "ab" (Or.inr (by decide))).1⟩

/-- Manual review is forced as soon as the compliance dimension is below
`COMPLIANCE_MIN`, whatever the overall score and the flag list are. -/
lemma requires_manual_review_of_low_compliance (s : Scores) (o : ℚ) (fl : List String)
    (h : s.compliance < QualityThresholds.COMPLIANCE_MIN) :
    requires_manual_review s o fl = true := by
  unfold requires_manual_review
  split_ifs <;> simp_all

/-- C3: every scoring outcome whose compliance dimension is strictly below 80
has manual_review_required true, regardless of the other dimensions and of
the overall score. -/
theorem C3_compliance_forces_manual_review (rf : RegexFeatures) (ts response : String)
    (ctx : Option String) (title : String)
    (h : (score_response rf ts response ctx title).breakdown.compliance < 80) :
    (score_response rf ts response ctx title).manual_review_required = true := by
  unfold score_response at h ⊢
  split_ifs at h ⊢ with hs
  · rfl
  · exact requires_manual_review_of_low_compliance
      ⟨(score_relevance response title ctx).1, (score_readability rf.flesch response).1,
       (score_authenticity rf response).1, (score_helpfulness rf response).1,
       (score_compliance rf response).1⟩ _ _ h

/-- Witness for C3 at the empty input, whose compliance score is 0. -/
theorem C3_compliance_forces_manual_review_witness :
    (score_response rf0 tsEx "" none "").breakdown.compliance < 80 ∧
    (score_response rf0 tsEx "" none "").manual_review_required = true :=
  ⟨by decide, C3_compliance_forces_manual_review rf0 tsEx "" none "" (by decide)⟩

/-- C4: on every non-short-circuit call the returned overall_score is the
fixed weighted combination 0.25 relevance + 0.15 readability +
0.20 authenticity + 0.25 helpfulness + 0.15 compliance of the clamped
dimension scores, rounded to one decimal place, and the five weights sum
exactly to 1. -/
theorem C4_weighted_aggregation (rf : RegexFeatures) (ts response : String)
    (ctx : Option String) (title : String)
    (h : ¬(response = "" ∨ (pyStrip response.toList).length < 10)) :
    (score_response rf ts response ctx title).overall_score
      = round1 ((score_response rf ts response ctx title).breakdown.relevance * 0.25
        + (score_response rf ts response ctx title).breakdown.readability * 0.15
        + (score_response rf ts response ctx title).breakdown.authenticity * 0.20
        + (score_response rf ts response ctx title).breakdown.helpfulness * 0.25
        + (score_response rf ts response ctx title).breakdown.compliance * 0.15) ∧
    (weights.map Prod.snd).sum = 1 := by
  constructor
  · unfold score_response
    rw [if_neg h]
    rfl
  · norm_num [weights]

set_option maxRecDepth 100000 in
/-- Witness for C4 at the concrete non-degenerate input `respEx`. -/
theorem C4_weighted_aggregation_witness :
    (¬(respEx = "" ∨ (pyStrip respEx.toList).length < 10)) ∧
    ((score_response rfEx tsEx respEx none titleEx).overall_score
      = round1 ((score_response rfEx tsEx respEx none titleEx).breakdown.relevance * 0.25
        + (score_response rfEx tsEx respEx none titleEx).breakdown.readability * 0.15
        + (score_response rfEx tsEx respEx none titleEx).breakdown.authenticity * 0.20
        + (score_response rfEx tsEx respEx none titleEx).breakdown.helpfulness * 0.25
        + (score_response rfEx tsEx respEx none titleEx).breakdown.compliance * 0.15) ∧
    (weights.map Prod.snd).sum = 1) :=
  ⟨by decide, C4_weighted_aggregation rfEx tsEx respEx none titleEx (by decide)⟩

end QualityScoring

namespace QualityScoring

set_option maxRecDepth 100000 in
/-- Relevance score of the example response against the title "you". -/
lemma respEx_relevance : (score_relevance respEx titleEx none).1 = 90 := by
  have h0 : ¬(titleEx = "") := by decide
  have h1 : (regexWords (lowerL titleEx.toList)).dedup = [['y', 'o', 'u']] := by decide
  have h2 : (([['y', 'o', 'u']] : List (List Char)).filter
      (fun w => ((regexWords (lowerL respEx.toList)).dedup).contains w)).length = 1 := by decide
  have h3 : addressingWords.any (fun w => inStr w (lowerL respEx.toList)) = true := by decide
  have h4 : inStr "?" titleEx.toList = false := by decide
  simp only [score_relevance, if_neg h0, h1, h2, h3, h4]
  norm_num [clamp100, min_def, max_def]

set_option maxRecDepth 100000 in
/-- Readability score of the example response with a Flesch value of 74. -/
lemma respEx_readability : (score_readability rfEx.flesch respEx).1 = 95 := by
  have hfl : rfEx.flesch = some 74 := rfl
  have h1 : (pyWords respEx.toList).length = 37 := by decide
  have h2 : (pySplitP (fun c => c == '.') respEx.toList).map
      (fun s => ((pyWords s).length : ℚ)) = [3, 11, 13, 10, 0] := by decide
  have h3 : (pySplitP (fun c => c == '.') respEx.toList).length = 5 := by decide
  simp only [score_readability, fleschAdj, readability_length_adj, avgSentenceLength,
    readability_sentence_adj, hfl, h1, h2, h3]
  norm_num [clamp100, min_def, max_def, List.sum_cons, List.sum_nil]

set_option maxRecDepth 100000 in
/-- Authenticity score of the example response under the example regex
counts: base 50, +25 positive, +5 Reddit tone, -15 for the one matching
negative indicator, +10 personal perspective. -/
lemma respEx_authenticity : (score_authenticity rfEx respEx).1 = 75 := by
  have h1 : hasPersonalPerspective respEx = true := by decide
  have h2 : formalCount respEx = 0 := by decide
  simp only [score_authenticity, h1, h2, rfEx, rf0]
  norm_num [clamp100, min_def, max_def]

set_option maxRecDepth 100000 in
/-- Helpfulness score of the example response under the example regex counts. -/
lemma respEx_helpfulness : (score_helpfulness rfEx respEx).1 = 100 := by
  have h1 : (actionWords.filter
      (fun w => inStr (" " ++ w ++ " ") (' ' :: lowerL respEx.toList ++ [' ']))).length = 2 := by
    decide
  have h2 : (vaguePhrases.filter (fun p => inStr p (lowerL respEx.toList))).length = 0 := by decide
  have h3 : (dismissivePhrases.filter (fun p => inStr p (lowerL respEx.toList))).length = 0 := by
    decide
  have h4 : (nonAnswerPhrases.filter (fun p => inStr p (lowerL respEx.toList))).length = 0 := by
    decide
  have h5 : (circularPhrases.filter (fun p => inStr p (lowerL respEx.toList))).length = 0 := by
    decide
  have h6 : (pyWords respEx.toList).length = 37 := by decide
  have h7 : comprehensiveIndicators.any (fun p => inStr p (lowerL respEx.toList)) = false := by
    decide
  simp only [score_helpfulness, hvAdd, hvFb, rfEx, rf0, h1, h2, h3, h4, h5, h6, h7]
  norm_num [clamp100, min_def, max_def]

set_option maxRecDepth 100000 in
/-- Compliance score of the example response under the example regex counts. -/
lemma respEx_compliance : (score_compliance rfEx respEx).1 = 96 := by
  have h1 : complianceRespectful.any (fun p => inStr p (lowerL respEx.toList)) = true := by decide
  have h2 : complianceHelpfulPhrases.any (fun p => inStr p (lowerL respEx.toList)) = false := by
    decide
  have h3 : complianceCommunity.any (fun p => inStr p (lowerL respEx.toList)) = false := by decide
  have h4 : complianceAttribution.any (fun p => inStr p (lowerL respEx.toList)) = false := by
    decide
  have h5 : (pyWords respEx.toList).length = 37 := by decide
  have h6 : respEx.toList.count '!' = 0 := by decide
  simp only [score_compliance, majorPenalty, majorFb, minorPenalty, minorFb,
    positiveAdd, positiveFb, rfEx, rf0, h1, h2, h3, h4, h5, h6]
  norm_num [clamp100, min_def, max_def]

/-- Weighted aggregate of the example dimension scores. -/
lemma respEx_weightedSum : weightedSum ⟨90, 95, 75, 100, 96⟩ = 1823 / 20 := by
  norm_num [weightedSum]

set_option maxRecDepth 100000 in
/-- Evaluation of the example scoring call: the stored overall score and the
generated quality flags. -/
lemma respEx_result_eval :
    (score_response rfEx tsEx respEx none titleEx).overall_score = round1 (1823 / 20) ∧
    (score_response rfEx tsEx respEx none titleEx).quality_flags
      = generate_quality_flags ⟨90, 95, 75, 100, 96⟩ (1823 / 20) := by
  constructor
  · show round1 (weightedSum ⟨(score_relevance respEx titleEx none).1,
      (score_readability rfEx.flesch respEx).1, (score_authenticity rfEx respEx).1,
      (score_helpfulness rfEx respEx).1, (score_compliance rfEx respEx).1⟩) = _
    rw [respEx_relevance, respEx_readability, respEx_authenticity, respEx_helpfulness,
      respEx_compliance, respEx_weightedSum]
  · show generate_quality_flags ⟨(score_relevance respEx titleEx none).1,
        (score_readability rfEx.flesch respEx).1, (score_authenticity rfEx respEx).1,
        (score_helpfulness rfEx respEx).1, (score_compliance rfEx respEx).1⟩
      (weightedSum ⟨(score_relevance respEx titleEx none).1,
        (score_readability rfEx.flesch respEx).1, (score_authenticity rfEx respEx).1,
        (score_helpfulness rfEx respEx).1, (score_compliance rfEx respEx).1⟩) = _
    rw [respEx_relevance, respEx_readability, respEx_authenticity, respEx_helpfulness,
      respEx_compliance, respEx_weightedSum]

/-- Rounding the example overall score to one decimal place. -/
lemma respEx_round1 : round1 (1823 / 20) = 456 / 5 := by
  rw [round1, round_eq]
  have h : (1823 / 20 * 10 + 1 / 2 : ℚ) = ((912 : ℤ) : ℚ) := by norm_num
  rw [h, Int.floor_intCast]
  norm_num

/-- Quality flags generated for the example dimension scores and overall:
the overall chain emits only EXCELLENT_QUALITY, and no dimension or
special flag fires (authenticity 75 is above its minimum of 70 but keeps
ALL_DIMENSIONS_EXCELLENT off). -/
lemma respEx_flags : generate_quality_flags ⟨90, 95, 75, 100, 96⟩ (1823 / 20)
    = ["EXCELLENT_QUALITY"] := by
  norm_num [generate_quality_flags, overall_quality_flags, dimension_quality_flags,
    special_quality_flags, Scores.values, QualityThresholds.EXCELLENT,
    QualityThresholds.AUTO_APPROVE, QualityThresholds.REJECT, QualityThresholds.RELEVANCE_MIN,
    QualityThresholds.READABILITY_MIN, QualityThresholds.AUTHENTICITY_MIN,
    QualityThresholds.HELPFULNESS_MIN, QualityThresholds.COMPLIANCE_MIN,
    decide_eq_true_eq, List.all_cons, List.all_nil, List.any_cons, List.any_nil]

/-- C5 counterexample: on the concrete high-quality input `respEx` the
scored result has overall_score at least 90 and carries EXCELLENT_QUALITY,
yet does not carry AUTO_APPROVE_CANDIDATE — the overall flags come from an
if/elif chain, not from a union of independent conditions, so the claim
that every result with overall at least 90 carries both flags is false. -/
theorem C5_flags_counterexample :
    (90 : ℚ) ≤ (score_response rfEx tsEx respEx none titleEx).overall_score ∧
    "EXCELLENT_QUALITY" ∈ (score_response rfEx tsEx respEx none titleEx).quality_flags ∧
    "AUTO_APPROVE_CANDIDATE" ∉ (score_response rfEx tsEx respEx none titleEx).quality_flags := by
  obtain ⟨ho, hf⟩ := respEx_result_eval
  refine ⟨?_, ?_, ?_⟩
  · rw [ho, respEx_round1]
    norm_num
  · rw [hf, respEx_flags]
    decide
  · rw [hf, respEx_flags]
    decide

end QualityScoring

namespace QualityScoring

/-- EXCELLENT_QUALITY appears in the overall chain exactly when the overall
score is at least 90. -/
lemma overall_flags_excellent (o : ℚ) :
    "EXCELLENT_QUALITY" ∈ overall_quality_flags o ↔ 90 ≤ o := by
  unfold overall_quality_flags QualityThresholds.EXCELLENT QualityThresholds.AUTO_APPROVE
    QualityThresholds.REJECT
  split_ifs with h1 h2 h3 <;> simp_all

/-- AUTO_APPROVE_CANDIDATE appears in the overall chain exactly when the
overall score is in [85, 90). -/
lemma overall_flags_auto (o : ℚ) :
    "AUTO_APPROVE_CANDIDATE" ∈ overall_quality_flags o ↔ 85 ≤ o ∧ o < 90 := by
  unfold overall_quality_flags QualityThresholds.EXCELLENT QualityThresholds.AUTO_APPROVE
    QualityThresholds.REJECT
  split_ifs with h1 h2 h3
  · simp only [List.mem_singleton]
    constructor
    · intro h
      exact absurd h (by decide)
    · rintro ⟨h4, h5⟩
      exact absurd h1 (not_le.mpr h5)
  · simp only [List.mem_singleton]
    constructor
    · intro h
      exact ⟨h2, not_le.mp h1⟩
    · intro h
      trivial
  · simp only [List.mem_singleton]
    constructor
    · intro h
      exact absurd h (by decide)
    · rintro ⟨h4, h5⟩
      exact absurd h4 h2
  · simp only [List.not_mem_nil, false_iff]
    rintro ⟨h4, h5⟩
    exact h2 h4

/-- REJECT_CANDIDATE appears in the overall chain exactly when the overall
score is at most 40. -/
lemma overall_flags_reject (o : ℚ) :
    "REJECT_CANDIDATE" ∈ overall_quality_flags o ↔ o ≤ 40 := by
  unfold overall_quality_flags QualityThresholds.EXCELLENT QualityThresholds.AUTO_APPROVE
    QualityThresholds.REJECT
  split_ifs with h1 h2 h3
  · simp only [List.mem_singleton]
    constructor
    · intro h
      exact absurd h (by decide)
    · intro h4
      exact absurd h1 (by linarith)
  · simp only [List.mem_singleton]
    constructor
    · intro h
      exact absurd h (by decide)
    · intro h4
      exact absurd h2 (by linarith)
  · simp only [List.mem_singleton, h3, iff_true]
  · simp only [List.not_mem_nil, false_iff]
    exact h3

/-- None of the three overall-level flag strings can come from the
dimension-level or the special flag chunks. -/
lemma not_mem_dimension_special (s : Scores) (a : String)
    (ha : a = "EXCELLENT_QUALITY" ∨ a = "AUTO_APPROVE_CANDIDATE" ∨ a = "REJECT_CANDIDATE") :
    a ∉ dimension_quality_flags s ∧ a ∉ special_quality_flags s := by
  rcases ha with h | h | h <;> subst h <;>
    exact ⟨by unfold dimension_quality_flags; split_ifs <;> decide,
           by unfold special_quality_flags; split_ifs <;> decide⟩

/-- C5 amended: the three overall-level quality flags are the mutually
exclusive alternatives of an if/elif chain: EXCELLENT_QUALITY appears
exactly when overall is at least 90, AUTO_APPROVE_CANDIDATE exactly when
overall lies in [85, 90), and REJECT_CANDIDATE exactly when overall is at
most 40; the dimension-level flags remain independent conditions appended
afterwards. -/
theorem C5_amended_flag_chain (s : Scores) (o : ℚ) :
    ("EXCELLENT_QUALITY" ∈ generate_quality_flags s o ↔ 90 ≤ o) ∧
    ("AUTO_APPROVE_CANDIDATE" ∈ generate_quality_flags s o ↔ 85 ≤ o ∧ o < 90) ∧
    ("REJECT_CANDIDATE" ∈ generate_quality_flags s o ↔ o ≤ 40) := by
  have he := not_mem_dimension_special s "EXCELLENT_QUALITY" (Or.inl rfl)
  have haa := not_mem_dimension_special s "AUTO_APPROVE_CANDIDATE" (Or.inr (Or.inl rfl))
  have hr := not_mem_dimension_special s "REJECT_CANDIDATE" (Or.inr (Or.inr rfl))
  refine ⟨?_, ?_, ?_⟩
  · simp [generate_quality_flags, List.mem_append, he.1, he.2, overall_flags_excellent]
  · simp [generate_quality_flags, List.mem_append, haa.1, haa.2, overall_flags_auto]
  · simp [generate_quality_flags, List.mem_append, hr.1, hr.2, overall_flags_reject]

/-- Generic if/elif cutoff tower: the value of the first entry whose cutoff
is at most the argument, or 0 when none applies. -/
def towerAux : List (ℚ × ℕ) → ℚ → ℕ
  | [], _ => 0
  | p :: rest, x => if p.1 ≤ x then p.2 else towerAux rest x

/-- A cutoff tower never exceeds an upper bound of all its values. -/
lemma towerAux_le (l : List (ℚ × ℕ)) (bound : ℕ) (hb : ∀ p ∈ l, p.2 ≤ bound) (x : ℚ) :
    towerAux l x ≤ bound := by
  induction l with
  | nil => exact Nat.zero_le bound
  | cons p rest ih =>
    unfold towerAux
    split_ifs
    · exact hb p (List.mem_cons_self p rest)
    · exact ih (fun q hq => hb q (List.mem_cons_of_mem p hq))

/-- A cutoff tower with descending values is a monotone function. -/
lemma towerAux_mono (l : List (ℚ × ℕ)) (hp : List.Pairwise (fun p q => q.2 ≤ p.2) l) :
    ∀ a b : ℚ, a ≤ b → towerAux l a ≤ towerAux l b := by
  induction l with
  | nil => exact fun a b _ => le_refl 0
  | cons p rest ih =>
    intro a b hab
    unfold towerAux
    by_cases ha : p.1 ≤ a
    · rw [if_pos ha, if_pos (ha.trans hab)]
    · by_cases hb2 : p.1 ≤ b
      · rw [if_neg ha, if_pos hb2]
        exact towerAux_le rest p.2 (fun q hq => (List.pairwise_cons.mp hp).1 q hq) a
      · rw [if_neg ha, if_neg hb2]
        exact ih (List.pairwise_cons.mp hp).2 a b hab

/-- The cutoffs of `_get_grade` paired with the ranks of the grades they
yield, in source order. -/
def gradeCutoffs : List (ℚ × ℕ) :=
  [(95, 10), (90, 9), (85, 8), (80, 7), (75, 6), (70, 5), (65, 4), (60, 3), (55, 2), (50, 1)]

set_option maxHeartbeats 1000000 in
/-- The rank of the grade equals the cutoff tower over the grade cutoffs. -/
lemma gradeRank_get_grade (x : ℚ) : gradeRank (get_grade x) = towerAux gradeCutoffs x := by
  unfold get_grade gradeCutoffs
  simp only [towerAux]
  split_ifs <;> rfl

/-- C6: the letter grade is produced by the fixed non-overlapping cutoffs of
`_get_grade` as a pure function of the overall score, and is monotone: a
strictly smaller overall score never receives a strictly better grade under
A+ > A > A- > B+ > B > B- > C+ > C > C- > D > F. -/
theorem C6_grade_monotone (a b : ℚ) (h : a < b) :
    gradeRank (get_grade a) ≤ gradeRank (get_grade b) := by
  rw [gradeRank_get_grade, gradeRank_get_grade]
  exact towerAux_mono gradeCutoffs (by decide) a b h.le

/-- Witness for C6 at the concrete pair 50 < 60. -/
theorem C6_grade_monotone_witness :
    (50 : ℚ) < 60 ∧ gradeRank (get_grade 50) ≤ gradeRank (get_grade 60) :=
  ⟨by norm_num, C6_grade_monotone 50 60 (by norm_num)⟩

end QualityScoring

namespace QualityScoring

/-- Readability evaluation at a short input with the Flesch computation
raising: the length penalty still applies and no fallback note appears. -/
lemma respShort_readability_eval :
    score_readability none "this short test" = (30, ["Response too short"]) := by
  have h1 : (pyWords ("this short test" : String).toList).length = 3 := by decide
  have h2 : (pySplitP (fun c => c == '.') ("this short test" : String).toList).map
      (fun s => ((pyWords s).length : ℚ)) = [3] := by decide
  have h3 : (pySplitP (fun c => c == '.') ("this short test" : String).toList).length = 1 := by
    decide
  simp only [score_readability, fleschAdj, readability_length_adj, avgSentenceLength,
    readability_sentence_adj, h1, h2, h3]
  norm_num [clamp100, min_def, max_def, List.sum_cons, List.sum_nil]

/-- C7 counterexample: when the Flesch computation raises (modelled by
`none`), the readability dimension neither appends the feedback note
"computation unavailable, using baseline" nor returns its unmodified base
score of 50 — at the concrete input below it silently returns 30 (the base
adjusted by the length penalty) with feedback ["Response too short"]. -/
theorem C7_no_fallback_note_counterexample :
    "computation unavailable, using baseline" ∉ (score_readability none "this short test").2 ∧
    (score_readability none "this short test").1 ≠ 50 := by
  rw [respShort_readability_eval]
  decide

/-- C7 amended: when the Flesch computation raises, `_score_readability`
swallows the exception with its bare except-pass, skips only the Flesch
adjustment, still applies the length and sentence-structure adjustments to
the base score of 50, and appends no fallback feedback note; no exception
propagates upward. -/
theorem C7_amended_silent_fallback (response : String) :
    score_readability none response =
      (clamp100 (50 + (readability_length_adj response).1
          + (readability_sentence_adj response).1),
        (readability_length_adj response).2 ++ (readability_sentence_adj response).2) ∧
    "computation unavailable, using baseline" ∉ (score_readability none response).2 := by
  have heq : score_readability none response =
      (clamp100 (50 + (readability_length_adj response).1
          + (readability_sentence_adj response).1),
        (readability_length_adj response).2 ++ (readability_sentence_adj response).2) := by
    unfold score_readability fleschAdj
    norm_num
  refine ⟨heq, ?_⟩
  rw [heq]
  simp only [List.mem_append, not_or]
  constructor
  · simp only [readability_length_adj]
    split_ifs <;> simp
  · simp only [readability_sentence_adj]
    split_ifs <;> simp

/-- C8 counterexample: the short-circuit result of `score_response` carries
no scoring_metadata entry at all, refuting the claim that every returned
QualityResult (including those for empty or too-short inputs) contains one. -/
theorem C8_metadata_counterexample :
    (score_response rf0 tsEx "" none "").scoring_metadata = none := by
  rfl

/-- C8 amended: every non-short-circuit result carries a scoring_metadata
entry holding the weights used, the three decision thresholds, and the
scored_at timestamp; the short-circuit results carry none. -/
theorem C8_amended_metadata (rf : RegexFeatures) (ts response : String)
    (ctx : Option String) (title : String)
    (h : ¬(response = "" ∨ (pyStrip response.toList).length < 10)) :
    (score_response rf ts response ctx title).scoring_metadata =
      some { weights := weights, auto_approve := QualityThresholds.AUTO_APPROVE,
             manual_review := QualityThresholds.MANUAL_REVIEW,
             reject := QualityThresholds.REJECT, scored_at := ts } := by
  unfold score_response
  rw [if_neg h]

set_option maxRecDepth 100000 in
/-- Witness for the amended C8 at the concrete input `respEx`. -/
theorem C8_amended_metadata_witness :
    (¬(respEx = "" ∨ (pyStrip respEx.toList).length < 10)) ∧
    (score_response rfEx tsEx respEx none titleEx).scoring_metadata =
      some { weights := weights, auto_approve := QualityThresholds.AUTO_APPROVE,
             manual_review := QualityThresholds.MANUAL_REVIEW,
             reject := QualityThresholds.REJECT, scored_at := tsEx } :=
  ⟨by decide, C8_amended_metadata rfEx tsEx respEx none titleEx (by decide)⟩

/-- C9: at the dimension scores (41, 60, 60, 60, 80), all within [0,100],
the weighted overall score is 58.25, strictly below the MANUAL_REVIEW
threshold of 60, and yet `_requires_manual_review` returns false: a result
can fall below the manual-review band without being routed to review. -/
theorem C9_below_band_no_review :
    weightedSum ⟨41, 60, 60, 60, 80⟩ = 58.25 ∧
    weightedSum ⟨41, 60, 60, 60, 80⟩ < QualityThresholds.MANUAL_REVIEW ∧
    requires_manual_review ⟨41, 60, 60, 60, 80⟩ (weightedSum ⟨41, 60, 60, 60, 80⟩)
      (generate_quality_flags ⟨41, 60, 60, 60, 80⟩ (weightedSum ⟨41, 60, 60, 60, 80⟩))
      = false := by
  have hws : weightedSum ⟨41, 60, 60, 60, 80⟩ = 58.25 := by norm_num [weightedSum]
  have hflags : generate_quality_flags ⟨41, 60, 60, 60, 80⟩ (58.25 : ℚ)
      = ["LOW_RELEVANCE", "POOR_READABILITY", "INAUTHENTIC_TONE", "LOW_HELPFULNESS"] := by
    norm_num [generate_quality_flags, overall_quality_flags, dimension_quality_flags,
      special_quality_flags, Scores.values, QualityThresholds.EXCELLENT,
      QualityThresholds.AUTO_APPROVE, QualityThresholds.REJECT,
      QualityThresholds.RELEVANCE_MIN, QualityThresholds.READABILITY_MIN,
      QualityThresholds.AUTHENTICITY_MIN, QualityThresholds.HELPFULNESS_MIN,
      QualityThresholds.COMPLIANCE_MIN, decide_eq_true_eq,
      List.all_cons, List.all_nil, List.any_cons, List.any_nil]
  have hreq : requires_manual_review ⟨41, 60, 60, 60, 80⟩ (58.25 : ℚ)
      ["LOW_RELEVANCE", "POOR_READABILITY", "INAUTHENTIC_TONE", "LOW_HELPFULNESS"]
      = false := by
    norm_num [requires_manual_review, criticalFlags, Scores.values, QualityThresholds.REJECT,
      QualityThresholds.COMPLIANCE_MIN, QualityThresholds.MANUAL_REVIEW,
      QualityThresholds.AUTO_APPROVE, decide_eq_true_eq, List.filter_cons, List.filter_nil]
    decide
  refine ⟨hws, ?_, ?_⟩
  · rw [hws]
    norm_num [QualityThresholds.MANUAL_REVIEW]
  · rw [hws, hflags]
    exact hreq

/-- C10: whenever the lower-cased response contains the letter i anywhere,
the authenticity scorer counts the first-person indicator "i" as contained
(substring containment, not whole-word matching), so the +10 personal
perspective bonus is granted and the corresponding feedback is appended. -/
theorem C10_personal_perspective_substring (rf : RegexFeatures) (response : String)
    (h : inStr "i" (lowerL response.toList) = true) :
    hasPersonalPerspective response = true ∧
    "Includes personal perspective" ∈ (score_authenticity rf response).2 ∧
    (score_authenticity rf response).1
      = clamp100 (50 + min ((rf.authPositive : ℚ) * 8) 25 + min ((rf.authReddit : ℚ) * 5) 15
          - (rf.authNegative : ℚ) * 15 + 10
          - (if 2 < formalCount response then 10 else 0)) := by
  have hp : hasPersonalPerspective response = true := by
    unfold hasPersonalPerspective experienceIndicators
    simp only [List.any_cons, List.any_nil, Bool.or_eq_true]
    exact Or.inl h
  refine ⟨hp, ?_, ?_⟩
  · simp only [score_authenticity, hp]
    simp [List.mem_append]
  · simp only [score_authenticity, hp]
    simp

/-- Witness for C10 at the concrete input "this", which contains the letter
i but no genuinely first-person language. -/
theorem C10_personal_perspective_substring_witness :
    inStr "i" (lowerL ("this" : String).toList) = true ∧
    (hasPersonalPerspective "this" = true ∧
     "Includes personal perspective" ∈ (score_authenticity rf0 "this").2 ∧
     (score_authenticity rf0 "this").1
       = clamp100 (50 + min ((rf0.authPositive : ℚ) * 8) 25 + min ((rf0.authReddit : ℚ) * 5) 15
           - (rf0.authNegative : ℚ) * 15 + 10
           - (if 2 < formalCount "this" then 10 else 0))) :=
  ⟨by decide, C10_personal_perspective_substring rf0 "this" (by decide)⟩

end QualityScoring
